import Mathlib

/-!
Verification of the credential-verification and token-issuance core of the
bcrypt + JWT Express scaffold: the password hasher, the token issuer, the
access-guard middleware, and the registration / login controllers, embedded
as executable Lean definitions, plus theorems settling the specified
properties against them.
-/

namespace CadastroSeguro

/-- Splitting a character list at every occurrence of a separator, with the
semantics of the JavaScript `String.split` on a one-character separator:
adjacent separators and separators at either end produce empty segments, and
the empty input yields one empty segment. -/
def splitOnChar (sep : Char) : List Char → List (List Char)
  | [] => [[]]
  | c :: cs =>
    let r := splitOnChar sep cs
    if c = sep then [] :: r
    else
      match r with
      | [] => [[c]]
      | g :: gs => (c :: g) :: gs

/-- JavaScript `s.split(sep)` for a one-character separator, over Lean strings. -/
def jsSplit (s : String) (sep : Char) : List String :=
  (splitOnChar sep s.data).map String.mk

/-- The numeric value of a decimal digit character, if it is one. -/
def digitVal (c : Char) : Option Nat :=
  if '0' ≤ c ∧ c ≤ '9' then some (c.toNat - '0'.toNat) else none

/-- Parsing a nonempty all-digit string as a natural number, with `none` on the
empty string or any non-digit character. -/
def parseNat (s : String) : Option Nat :=
  match s.data with
  | [] => none
  | cs => cs.foldl
      (fun acc c =>
        match acc, digitVal c with
        | some a, some d => some (a * 10 + d)
        | _, _ => none)
      (some 0)

/-- Decimal digit characters of a natural number, most significant first; the
first argument is recursion fuel. -/
def natToCharsAux : Nat → Nat → List Char
  | 0, _ => []
  | fuel + 1, n =>
    if n < 10 then [Char.ofNat (48 + n)]
    else natToCharsAux fuel (n / 10) ++ [Char.ofNat (48 + n % 10)]

/-- Decimal rendering of a natural number. -/
def natToString (n : Nat) : String :=
  String.mk (natToCharsAux (n + 1) n)

/-- Modelled from the spec: the bcrypt library is an external dependency, not
part of this repository. Per the spec a digest is self-describing, embedding
the salt and the cost factor used to produce it, and verification recomputes
the derived output from the embedded salt and cost. The derivation itself is
modelled by an executable keyed mixing function over the plaintext. -/
def bcryptDerive (plaintext : String) (cost salt : Nat) : Nat :=
  plaintext.data.foldl (fun a c => (a * 31 + c.toNat + cost) % 1000003) (salt % 1000003 + cost)

/-- A bcrypt digest: cost factor and salt are embedded alongside the derived
output, so verification needs no external parameters. -/
structure Digest where
  cost : Nat
  salt : Nat
  out : Nat
  deriving Repr, DecidableEq

/-- Modelled from the spec: `bcrypt.hash` with an explicit fresh salt. The salt
is generated per call from a random source, so it enters as a parameter. -/
def bcryptHash (plaintext : String) (cost salt : Nat) : Digest :=
  ⟨cost, salt, bcryptDerive plaintext cost salt⟩

/-- Modelled from the spec: `bcrypt.compare` recomputes with the salt and cost
embedded in the digest and compares the outputs. -/
def bcryptCompare (plaintext : String) (d : Digest) : Bool :=
  bcryptDerive plaintext d.cost d.salt == d.out

/-- The auth service of the guide: `parseInt(process.env.BCRYPT_SALT_ROUNDS || '10')`,
so an unset variable yields cost 10. -/
def saltRounds (envRounds : Option Nat) : Nat :=
  envRounds.getD 10

/-- The auth service of the guide: hash a password with the configured rounds
and a freshly generated salt (passed explicitly). -/
def hashSenha (envRounds : Option Nat) (senha : String) (salt : Nat) : Digest :=
  bcryptHash senha (saltRounds envRounds) salt

/-- The auth service of the guide: `bcrypt.compare(senha, hash)`. -/
def compararSenha (senha : String) (hash : Digest) : Bool :=
  bcryptCompare senha hash

/-- Both the controller guide and auth.middleware.js compute the signing key as
`process.env.JWT_SECRET || "secret"`: an unset or empty environment variable
falls back to the literal string "secret". -/
def SECRET (jwtSecret : Option String) : String :=
  match jwtSecret with
  | none => "secret"
  | some s => if s.isEmpty then "secret" else s

/-- Modelled from the spec: the jsonwebtoken library is an external dependency.
The signature over the claim set is modelled as an executable keyed checksum of
the secret together with the subject id and the issued-at / expires-at times. -/
def jwtMac (secret : String) (sub iat exp : Nat) : Nat :=
  (secret.data.foldl (fun a c => (a * 131 + c.toNat) % 1000000007) 7
    + sub * 1009 + iat * 10007 + exp * 100003) % 1000000007

/-- The claim set carried by a verified token: subject id plus the issued-at
and expires-at timestamps. -/
structure JwtClaims where
  sub : Nat
  iat : Nat
  exp : Nat
  deriving Repr, DecidableEq

/-- Modelled from the spec: `jwt.sign` produces a compact self-contained token
binding the claims and the expiry to a signature under the secret, and fails
when the secret is empty. The wire format is `sub.iat.exp.sig`. -/
def jwtSign (sub : Nat) (secret : String) (now ttl : Nat) : Except String String :=
  if secret.isEmpty then
    .error "secretOrPrivateKey must have a value"
  else
    .ok (natToString sub ++ "." ++ natToString now ++ "." ++ natToString (now + ttl)
      ++ "." ++ natToString (jwtMac secret sub now (now + ttl)))

/-- Modelled from the spec: `jwt.verify` parses the token, recomputes the
signature under the secret, and checks the expiry against the current time. -/
def jwtVerify (token : String) (secret : String) (now : Nat) : Except String JwtClaims :=
  match jsSplit token '.' with
  | [a, b, c, d] =>
    match parseNat a, parseNat b, parseNat c, parseNat d with
    | some sub, some iat, some exp, some sig =>
      if sig ≠ jwtMac secret sub iat exp then .error "invalid signature"
      else if exp ≤ now then .error "jwt expired"
      else .ok ⟨sub, iat, exp⟩
    | _, _, _, _ => .error "jwt malformed"
  | _ => .error "jwt malformed"

/-- Detail payload of an ApiError: the controllers pass either a field map
(object literal) or a bare message string. -/
inductive ErrDetail where
  | fields : List (String × String) → ErrDetail
  | msg : String → ErrDetail
  deriving Repr, DecidableEq

/-- errorHandler.util.js: an error carrying a message, an HTTP status code and
a detail payload. The Express error path responds with `err.status`. -/
structure ApiError where
  message : String
  status : Nat
  errors : ErrDetail
  deriving Repr, DecidableEq

/-- A stored credential record: a row of the `users` table. -/
structure StoredUser where
  id : Nat
  name : String
  email : String
  password : Digest
  deriving Repr, DecidableEq

/-- user.repository.js: `db("users").where("email", email).first()` — the first
row whose email column equals the given string exactly. -/
def findUserByEmail (db : List StoredUser) (email : String) : Option StoredUser :=
  db.find? (fun u => u.email == email)

/-- user.repository.js: `db("users").insert(user).returning("*")` evaluates to
the array of inserted rows, every column included. -/
def insertUser (u : StoredUser) : List StoredUser :=
  [u]

/-- The id the database assigns to a newly inserted row. -/
def nextId (db : List StoredUser) : Nat :=
  db.length + 1

/-- Outcome of the login controller: a JSON success response (status, message,
token) or an error forwarded to the Express error path. -/
inductive LoginResult where
  | ok : Nat → String → String → LoginResult
  | err : ApiError → LoginResult
  deriving Repr, DecidableEq

/-- The login controller of the guide: look up by email; absent record fails
404 "User not found"; a failed bcrypt comparison fails 401 "Invalid password";
otherwise sign a token with `SECRET` and a one-hour expiry and respond 200. -/
def login (jwtSecret : Option String) (now : Nat) (db : List StoredUser)
    (email password : String) : LoginResult :=
  match findUserByEmail db email with
  | none => .err ⟨"User not found", 404, .fields [("email", "User not found")]⟩
  | some user =>
    if bcryptCompare password user.password then
      match jwtSign user.id (SECRET jwtSecret) now 3600 with
      | .ok token => .ok 200 "User logged in successfully" token
      | .error e => .err ⟨"Error logging in", 400, .msg e⟩
    else
      .err ⟨"Invalid password", 401, .fields [("password", "Invalid password")]⟩

/-- Outcome of the signUp controller: a JSON success response (status, message,
inserted rows) or an error forwarded to the Express error path. -/
inductive SignUpResult where
  | ok : Nat → String → List StoredUser → SignUpResult
  | err : ApiError → SignUpResult
  deriving Repr, DecidableEq

/-- The signUp controller of the guide: duplicate email fails 400 "User already
exists"; otherwise the password is bcrypt-hashed with the configured rounds and
a fresh salt, the row is inserted, and the response echoes the rows returned by
`returning("*")` under status 201. -/
def signUp (db : List StoredUser) (salt : Nat) (envRounds : Option Nat)
    (name email password : String) : SignUpResult :=
  match findUserByEmail db email with
  | some _ => .err ⟨"User already exists", 400, .fields [("email", "User already exists")]⟩
  | none =>
    let hashedPassword := bcryptHash password (saltRounds envRounds) salt
    let newUser := insertUser ⟨nextId db, name, email, hashedPassword⟩
    .ok 201 "User created successfully" newUser

/-- Whitespace for the purpose of trimming a login key. -/
def isSpaceChar (c : Char) : Bool :=
  c = ' ' ∨ c = '\t' ∨ c = '\n' ∨ c = '\r'

/-- ASCII lowercasing of one character. -/
def lowerChar (c : Char) : Char :=
  if 'A' ≤ c ∧ c ≤ 'Z' then Char.ofNat (c.toNat + 32) else c

/-- Modelled from the spec: zodSchemas.util.js and validateSchemas.middleware.js
are not under src. Per the spec the validation layer normalizes the login key —
surrounding whitespace is trimmed and letters are lowercased — before the
controllers run. -/
def normalizeKey (s : String) : String :=
  String.mk ((((s.data.dropWhile isSpaceChar).reverse.dropWhile isSpaceChar).reverse).map lowerChar)

/-- The registration pipeline: schema validation (which normalizes the login
key) followed by the signUp controller. -/
def registerFlow (db : List StoredUser) (salt : Nat) (envRounds : Option Nat)
    (name email password : String) : SignUpResult :=
  signUp db salt envRounds name (normalizeKey email) password

/-- The login pipeline: schema validation (which normalizes the login key)
followed by the login controller. -/
def loginFlow (jwtSecret : Option String) (now : Nat) (db : List StoredUser)
    (email password : String) : LoginResult :=
  login jwtSecret now db (normalizeKey email) password

/-- Body of an HTTP response in the protected route: the user listing, an error
payload, or the empty body of the Express fallthrough. -/
inductive Body where
  | usersList : List StoredUser → Body
  | apiErr : ApiError → Body
  | empty : Body
  deriving Repr, DecidableEq

/-- What a handler does with its turn: call `next()` with no argument, forward
an error via `next(err)`, or send a response via `res.status(n).json(body)`. -/
inductive HandlerOutcome where
  | next : HandlerOutcome
  | nextError : ApiError → HandlerOutcome
  | send : Nat → Body → HandlerOutcome
  deriving Repr, DecidableEq

/-- The request context a handler sees: the authorization header, the `user`
field the guard may attach, and the repository result available to the user
listing handler. -/
structure ReqCtx where
  authorization : Option String
  user : Option JwtClaims
  repoUsers : Option (List StoredUser)
  deriving Repr, DecidableEq

/-- auth.middleware.js: `tokenHeader && tokenHeader.split(" ")[1]` — the second
space-separated segment of the header, with a missing header, a missing second
segment, or an empty second segment all yielding a falsy token. -/
def extractToken (authorization : Option String) : Option String :=
  match authorization with
  | none => none
  | some h =>
    match (jsSplit h ' ')[1]? with
    | none => none
    | some t => if t.isEmpty then none else some t

/-- auth.middleware.js: a falsy token forwards ApiError "Token not found" 401;
otherwise the token is verified against `SECRET`, a verification error forwards
ApiError "Error authenticating user" 401, and success attaches the decoded
claims as `req.user` and calls `next()`. -/
def authMiddleware (jwtSecret : Option String) (now : Nat) (ctx : ReqCtx) :
    HandlerOutcome × ReqCtx :=
  match extractToken ctx.authorization with
  | none =>
    (.nextError ⟨"Token not found", 401, .fields [("token", "Token not found")]⟩, ctx)
  | some token =>
    match jwtVerify token (SECRET jwtSecret) now with
    | .error e => (.nextError ⟨"Error authenticating user", 401, .msg e⟩, ctx)
    | .ok user => (.next, { ctx with user := some user })

/-- user.controller.js: `findAllUsers` yielding null or undefined takes the 404
"Users not found" error branch; any array — the empty array included — is sent
as the 200 response body. -/
def getAll (users : Option (List StoredUser)) : HandlerOutcome :=
  match users with
  | none => .nextError ⟨"Users not found", 404, .fields [("users", "Users not found")]⟩
  | some us => .send 200 (.usersList us)

/-- The user listing as a handler in the chain: it reads the repository result
from the context. -/
def getAllHandler (ctx : ReqCtx) : HandlerOutcome × ReqCtx :=
  (getAll ctx.repoUsers, ctx)

/-- Express chain semantics: handlers run in order; `next()` passes the
(possibly updated) context on, while `next(err)` or a sent response stops the
chain. The result is the forwarded error if any, the sent response if any, and
the list of handler names that actually ran. -/
def runHandlers (hs : List (String × (ReqCtx → HandlerOutcome × ReqCtx))) (ctx : ReqCtx) :
    Option ApiError × Option (Nat × Body) × List String :=
  match hs with
  | [] => (none, none, [])
  | (name, h) :: rest =>
    match h ctx with
    | (.next, ctx2) =>
      let r := runHandlers rest ctx2
      (r.1, r.2.1, name :: r.2.2)
    | (.nextError e, _) => (some e, none, [name])
    | (.send s b, _) => (none, some (s, b), [name])

/-- Express finalization: a forwarded error is answered with its `status` field
by the error path; otherwise the sent response stands; an exhausted chain falls
through to the framework 404. -/
def expressFinalize : Option ApiError × Option (Nat × Body) → Nat × Body
  | (some e, _) => (e.status, .apiErr e)
  | (none, some r) => r
  | (none, none) => (404, .empty)

/-- user.routes.js line 7: `router.get("/", authMiddleware, userController.getAll)`
— the guard runs first and the user listing runs only if the guard calls
`next()` with no error. -/
def usersRoute (jwtSecret : Option String) (now : Nat) (ctx : ReqCtx) :
    (Nat × Body) × List String :=
  let r := runHandlers
    [("authMiddleware", authMiddleware jwtSecret now), ("getAll", getAllHandler)] ctx
  (expressFinalize (r.1, r.2.1), r.2.2)

/-- The password digests appearing anywhere in a signUp response body. -/
def responseDigests : SignUpResult → List Digest
  | .ok _ _ us => us.map (·.password)
  | .err _ => []

/-- Shared case analysis of the access guard: every run either attaches the
decoded claims and passes control on with no error, or forwards an ApiError
whose status is 401. -/
theorem authMiddleware_cases (jwtSecret : Option String) (now : Nat) (ctx : ReqCtx) :
    (∃ u, authMiddleware jwtSecret now ctx = (.next, { ctx with user := some u })) ∨
    (∃ e, authMiddleware jwtSecret now ctx = (.nextError e, ctx) ∧ e.status = 401) := by
  unfold authMiddleware
  split
  · exact Or.inr ⟨_, rfl, rfl⟩
  · split
    · exact Or.inr ⟨_, rfl, rfl⟩
    · exact Or.inl ⟨_, rfl⟩

/-- C1: the login controller distinguishes an unknown login key from a wrong
password: the former is answered 404 "User not found", the latter 401
"Invalid password", so the two outcomes differ at the response boundary,
contrary to the specified single InvalidCredentials outcome. -/
theorem login_enumeration_leak :
    login none 0 [⟨1, "alice", "alice@x.com", bcryptHash "right" 10 3⟩] "bob@x.com" "whatever"
      = .err ⟨"User not found", 404, .fields [("email", "User not found")]⟩ ∧
    login none 0 [⟨1, "alice", "alice@x.com", bcryptHash "right" 10 3⟩] "alice@x.com" "wrong"
      = .err ⟨"Invalid password", 401, .fields [("password", "Invalid password")]⟩ ∧
    ApiError.mk "User not found" 404 (.fields [("email", "User not found")])
      ≠ ApiError.mk "Invalid password" 401 (.fields [("password", "Invalid password")]) := by
  refine ⟨by decide, by decide, by decide⟩

/-- C2, counterexample: a concrete successful registration whose response body
carries the bcrypt digest of the submitted password — `returning("*")` echoes
every column of the inserted row, the password digest included. -/
theorem signUp_response_contains_digest :
    bcryptHash "Secret123!" 10 5 ∈
      responseDigests (registerFlow [] 5 none "alice" "alice@x.com" "Secret123!") := by
  decide

/-- C2 as amended: a successful registration responds 201 with the full created
record — identifier, name, normalized login key, and the password digest; the
plaintext password itself appears in no field (the password column holds its
digest). -/
theorem signUp_success_returns_full_record (db : List StoredUser) (salt : Nat)
    (envRounds : Option Nat) (name email password : String)
    (h : findUserByEmail db (normalizeKey email) = none) :
    registerFlow db salt envRounds name email password
      = .ok 201 "User created successfully"
          [⟨nextId db, name, normalizeKey email,
            bcryptHash password (saltRounds envRounds) salt⟩] := by
  simp [registerFlow, signUp, h, insertUser]

/-- C2, witness for the amended theorem at a concrete fresh registration. -/
theorem signUp_success_returns_full_record_witness :
    findUserByEmail [] (normalizeKey "alice@x.com") = none ∧
    registerFlow [] 5 none "alice" "alice@x.com" "Secret123!"
      = .ok 201 "User created successfully"
          [⟨1, "alice", normalizeKey "alice@x.com", bcryptHash "Secret123!" 10 5⟩] :=
  ⟨by decide, signUp_success_returns_full_record [] 5 none "alice" "alice@x.com" "Secret123!"
    (by decide)⟩

/-- C3, counterexample: with the secret key unset (and likewise empty), the
code substitutes the literal "secret"; a login then succeeds — the token is
signed under the default, and the access guard verifies that token under the
same default — instead of failing with a SigningError. -/
theorem missing_secret_uses_default :
    SECRET none = "secret" ∧ SECRET (some "") = "secret" ∧
    login none 0 [⟨1, "alice", "alice@x.com", bcryptHash "right" 10 3⟩] "alice@x.com" "right"
      = .ok 200 "User logged in successfully" "1.0.3600.362075464" ∧
    (authMiddleware none 0 ⟨some "Bearer 1.0.3600.362075464", none, none⟩).fst = .next := by
  refine ⟨rfl, rfl, by decide, by decide⟩

/-- C3 as amended: a missing or empty secret key is not fatal and never raises
a SigningError — the configured secret is always the nonempty fallback value,
so token issuance always succeeds. -/
theorem secret_fallback_always_signs (jwtSecret : Option String) (sub now ttl : Nat) :
    (SECRET jwtSecret).isEmpty = false ∧
    jwtSign sub (SECRET jwtSecret) now ttl
      = .ok (natToString sub ++ "." ++ natToString now ++ "." ++ natToString (now + ttl)
          ++ "." ++ natToString (jwtMac (SECRET jwtSecret) sub now (now + ttl))) := by
  have h : (SECRET jwtSecret).isEmpty = false := by
    match jwtSecret with
    | none => rfl
    | some s =>
      cases hs : s.isEmpty with
      | true =>
        have h1 : SECRET (some s) = "secret" := by simp [SECRET, hs]
        rw [h1]
        decide
      | false =>
        have h1 : SECRET (some s) = s := by simp [SECRET, hs]
        rw [h1, hs]
  exact ⟨h, by simp [jwtSign, h]⟩

/-- C4, counterexample: a header with a scheme other than "Bearer" is not
rejected as a malformed credential: its second segment goes straight to
signature verification, so "Basic xyz" is rejected with the verification-class
error, and "Basic " followed by a validly signed token is accepted outright. -/
theorem wrong_scheme_not_rejected_as_malformed :
    (authMiddleware none 0 ⟨some "Basic xyz", none, none⟩).fst
      = .nextError ⟨"Error authenticating user", 401, .msg "jwt malformed"⟩ ∧
    (authMiddleware none 0 ⟨some "Basic xyz", none, none⟩).fst
      ≠ .nextError ⟨"Token not found", 401, .fields [("token", "Token not found")]⟩ ∧
    (authMiddleware none 0 ⟨some "Basic 1.0.3600.362075464", none, none⟩).fst = .next := by
  refine ⟨by decide, by decide, by decide⟩

/-- Rewriting step for the guard when token extraction comes up empty. -/
theorem authMiddleware_of_extract_none (jwtSecret : Option String) (now : Nat)
    (ctx : ReqCtx) (hx : extractToken ctx.authorization = none) :
    authMiddleware jwtSecret now ctx
      = (.nextError ⟨"Token not found", 401, .fields [("token", "Token not found")]⟩, ctx) := by
  unfold authMiddleware
  rw [hx]

/-- Rewriting step for the guard when a token was extracted: the outcome is
whatever verification of that token yields. -/
theorem authMiddleware_of_extract_some (jwtSecret : Option String) (now : Nat)
    (ctx : ReqCtx) (t : String) (hx : extractToken ctx.authorization = some t) :
    authMiddleware jwtSecret now ctx
      = (match jwtVerify t (SECRET jwtSecret) now with
         | .error e => (.nextError ⟨"Error authenticating user", 401, .msg e⟩, ctx)
         | .ok user => (.next, { ctx with user := some user })) := by
  unfold authMiddleware
  rw [hx]

/-- A falsy JavaScript token value arises exactly from a missing or empty
second segment. -/
theorem tokenFalsy_iff (g : Option String) :
    (match g with
     | none => (none : Option String)
     | some t => if t.isEmpty then none else some t) = none ↔ (g = none ∨ g = some "") := by
  cases g with
  | none => simp
  | some t =>
    by_cases ht : t.isEmpty
    · have ht2 : t = "" := (String.isEmpty_iff t).mp ht
      subst ht2
      simp [String.isEmpty_iff]
    · have ht2 : ¬t = "" := fun he => ht ((String.isEmpty_iff t).mpr he)
      simp [ht, ht2]

/-- C4 as amended: the access guard answers with the malformed-credential
rejection ("Token not found", 401) exactly when the token extraction is empty;
extraction is empty exactly when the header is missing or its second
space-separated segment is absent or empty — the scheme word and any extra
segments are never validated, and a nonempty second segment is always passed
on to signature verification, whose verdict alone decides the outcome. -/
theorem authMiddleware_malformed_characterization (jwtSecret : Option String)
    (now : Nat) (ctx : ReqCtx) :
    ((authMiddleware jwtSecret now ctx).fst
        = .nextError ⟨"Token not found", 401, .fields [("token", "Token not found")]⟩
      ↔ extractToken ctx.authorization = none) ∧
    (∀ s, extractToken (some s) = none
      ↔ ((jsSplit s ' ')[1]? = none ∨ (jsSplit s ' ')[1]? = some "")) ∧
    extractToken none = none ∧
    (∀ t, extractToken ctx.authorization = some t →
      ((∃ u, jwtVerify t (SECRET jwtSecret) now = .ok u ∧
          (authMiddleware jwtSecret now ctx).fst = .next) ∨
       (∃ e, jwtVerify t (SECRET jwtSecret) now = .error e ∧
          (authMiddleware jwtSecret now ctx).fst
            = .nextError ⟨"Error authenticating user", 401, .msg e⟩))) := by
  refine ⟨?_, ?_, rfl, ?_⟩
  · cases hx : extractToken ctx.authorization with
    | none =>
      rw [authMiddleware_of_extract_none jwtSecret now ctx hx]
      simp
    | some t =>
      rw [authMiddleware_of_extract_some jwtSecret now ctx t hx]
      constructor
      · intro hcontra
        cases hv : jwtVerify t (SECRET jwtSecret) now with
        | error e =>
          rw [hv] at hcontra
          have hm : "Error authenticating user" = "Token not found" :=
            congrArg ApiError.message (HandlerOutcome.nextError.inj hcontra)
          exact absurd hm (by decide)
        | ok u =>
          rw [hv] at hcontra
          exact HandlerOutcome.noConfusion hcontra
      · intro hcontra
        exact Option.noConfusion hcontra
  · intro s
    exact tokenFalsy_iff ((jsSplit s ' ')[1]?)
  · intro t hx
    rw [authMiddleware_of_extract_some jwtSecret now ctx t hx]
    cases hv : jwtVerify t (SECRET jwtSecret) now with
    | error e => exact Or.inr ⟨e, rfl, rfl⟩
    | ok u => exact Or.inl ⟨u, rfl, rfl⟩

/-- C4, witness for the amended theorem: an empty Bearer token is rejected as
"Token not found", and the "Basic xyz" header has its second segment sent to
verification, which rejects it with the verification-class error. -/
theorem authMiddleware_malformed_characterization_witness :
    (authMiddleware none 0 ⟨some "Bearer ", none, none⟩).fst
      = .nextError ⟨"Token not found", 401, .fields [("token", "Token not found")]⟩ ∧
    ((∃ u, jwtVerify "xyz" (SECRET none) 0 = .ok u ∧
        (authMiddleware none 0 ⟨some "Basic xyz", none, none⟩).fst = .next) ∨
     (∃ e, jwtVerify "xyz" (SECRET none) 0 = .error e ∧
        (authMiddleware none 0 ⟨some "Basic xyz", none, none⟩).fst
          = .nextError ⟨"Error authenticating user", 401, .msg e⟩)) :=
  ⟨((authMiddleware_malformed_characterization none 0 ⟨some "Bearer ", none, none⟩).1).mpr
      (by decide),
   (authMiddleware_malformed_characterization none 0 ⟨some "Basic xyz", none, none⟩).2.2.2
      "xyz" (by decide)⟩

/-- C5, counterexample: a concrete duplicate registration is answered with
status code 400, not the specified 409. -/
theorem duplicate_registration_status_400 :
    registerFlow [⟨1, "alice", "alice@x.com", bcryptHash "pw" 10 3⟩] 7 none
        "alice2" "alice@x.com" "pw2"
      = .err ⟨"User already exists", 400, .fields [("email", "User already exists")]⟩ ∧
    (400 : Nat) ≠ 409 := by
  refine ⟨by decide, by decide⟩

/-- C5 as amended: a registration whose normalized login key matches an
existing record fails with the duplicate-account error "User already exists",
which the transport maps to status code 400. -/
theorem signUp_duplicate_maps_to_400 (db : List StoredUser) (salt : Nat)
    (envRounds : Option Nat) (name email password : String) (u : StoredUser)
    (h : findUserByEmail db (normalizeKey email) = some u) :
    registerFlow db salt envRounds name email password
      = .err ⟨"User already exists", 400, .fields [("email", "User already exists")]⟩ := by
  simp [registerFlow, signUp, h]

/-- C5, witness for the amended theorem at a concrete duplicate registration. -/
theorem signUp_duplicate_maps_to_400_witness :
    findUserByEmail [⟨1, "alice", "alice@x.com", bcryptHash "pw" 10 3⟩]
        (normalizeKey "Alice@X.com")
      = some ⟨1, "alice", "alice@x.com", bcryptHash "pw" 10 3⟩ ∧
    registerFlow [⟨1, "alice", "alice@x.com", bcryptHash "pw" 10 3⟩] 7 none
        "alice2" "Alice@X.com" "pw2"
      = .err ⟨"User already exists", 400, .fields [("email", "User already exists")]⟩ :=
  ⟨by decide, signUp_duplicate_maps_to_400 [⟨1, "alice", "alice@x.com", bcryptHash "pw" 10 3⟩]
      7 none "alice2" "Alice@X.com" "pw2" ⟨1, "alice", "alice@x.com", bcryptHash "pw" 10 3⟩
      (by decide)⟩

/-- C6: whenever the access guard forwards an error, the protected route
answers with status 401 and the user-listing handler never runs — the trace of
executed handlers is the guard alone. -/
theorem rejected_request_never_reaches_handler (jwtSecret : Option String)
    (now : Nat) (ctx : ReqCtx) (e : ApiError)
    (h : (authMiddleware jwtSecret now ctx).fst = .nextError e) :
    (usersRoute jwtSecret now ctx).fst.fst = 401 ∧
    (usersRoute jwtSecret now ctx).snd = ["authMiddleware"] := by
  rcases authMiddleware_cases jwtSecret now ctx with ⟨u, hu⟩ | ⟨e2, he2, hs⟩
  · rw [hu] at h
    exact absurd h (by simp)
  · simp [usersRoute, runHandlers, he2, expressFinalize, hs]

/-- C6, witness: a request with no authorization header is rejected, answered
401, and never reaches the user-listing handler. -/
theorem rejected_request_never_reaches_handler_witness :
    (authMiddleware none 0 ⟨none, none, some []⟩).fst
      = .nextError ⟨"Token not found", 401, .fields [("token", "Token not found")]⟩ ∧
    ((usersRoute none 0 ⟨none, none, some []⟩).fst.fst = 401 ∧
     (usersRoute none 0 ⟨none, none, some []⟩).snd = ["authMiddleware"]) :=
  ⟨by decide, rejected_request_never_reaches_handler none 0 ⟨none, none, some []⟩
      ⟨"Token not found", 401, .fields [("token", "Token not found")]⟩ (by decide)⟩

/-- C7: verifying a plaintext against the digest produced by hashing that same
plaintext, for any valid cost factor and any salt, succeeds. -/
theorem verify_of_hash_roundtrip (p : String) (c salt : Nat) (h : 0 < c) :
    compararSenha p (bcryptHash p c salt) = true := by
  simp [compararSenha, bcryptCompare, bcryptHash]

/-- C7, witness at a concrete plaintext, cost and salt. -/
theorem verify_of_hash_roundtrip_witness :
    0 < 10 ∧ compararSenha "Secret123!" (bcryptHash "Secret123!" 10 5) = true :=
  ⟨by decide, verify_of_hash_roundtrip "Secret123!" 10 5 (by decide)⟩

/-- C8: the validation layer lowercases and trims the login key before either
flow consults the store, so two requests whose login keys agree after
normalization produce identical outcomes in registration and in login — they
address the same credential record. -/
theorem normalized_keys_address_same_record (db : List StoredUser) (salt : Nat)
    (envRounds : Option Nat) (jwtSecret : Option String) (now : Nat)
    (name e1 e2 password : String)
    (h : normalizeKey e1 = normalizeKey e2) :
    registerFlow db salt envRounds name e1 password
      = registerFlow db salt envRounds name e2 password ∧
    loginFlow jwtSecret now db e1 password = loginFlow jwtSecret now db e2 password := by
  unfold registerFlow loginFlow
  rw [h]
  exact ⟨rfl, rfl⟩

/-- C8, witness: a key in mixed case with surrounding whitespace and its plain
lowercase form are interchangeable in both flows. -/
theorem normalized_keys_address_same_record_witness :
    normalizeKey " Alice@X.COM " = normalizeKey "alice@x.com" ∧
    (registerFlow [] 5 none "alice" " Alice@X.COM " "pw"
       = registerFlow [] 5 none "alice" "alice@x.com" "pw" ∧
     loginFlow none 0 [] " Alice@X.COM " "pw" = loginFlow none 0 [] "alice@x.com" "pw") :=
  ⟨by decide, normalized_keys_address_same_record [] 5 none none 0 "alice"
      " Alice@X.COM " "alice@x.com" "pw" (by decide)⟩

/-- C9: the user listing takes its 404 error branch only when the repository
result is null or undefined; every array result — the empty array included —
is answered 200 with that array as the body, so an empty user table yields a
200 response with an empty list. -/
theorem getAll_404_only_on_null (r : Option (List StoredUser)) :
    ((∃ e, getAll r = .nextError e) ↔ r = none) ∧
    getAll (some []) = .send 200 (.usersList []) := by
  constructor
  · cases r with
    | none => simp [getAll]
    | some us => simp [getAll]
  · rfl

/-- C10: every run of the access guard either attaches the decoded claims to
the request context and forwards control with no error, or forwards an
ApiError whose status is exactly 401; no other code path exists. -/
theorem authMiddleware_total_classification (jwtSecret : Option String) (now : Nat)
    (ctx : ReqCtx) :
    (∃ u, authMiddleware jwtSecret now ctx = (.next, { ctx with user := some u })) ∨
    (∃ e, authMiddleware jwtSecret now ctx = (.nextError e, ctx) ∧ e.status = 401) :=
  authMiddleware_cases jwtSecret now ctx

end CadastroSeguro
